import Mathlib

/-!
Verification of `dataset_utils.py` (class `CAPE_utils`), a small utility
wrapper over a mesh-sequence dataset.  The Python code is shallowly
embedded: numpy `(N, 3)` float arrays become lists of rational triples,
`.npz` archives become association lists from key strings to array data,
and the filesystem visible to `np.load` becomes an association list from
path strings to archives.  Fallible operations return `Except`/`Option`.
-/

/-- One vertex row of an `(N, 3)` numpy array: a triple of rationals
(exact stand-ins for the real-valued entries). -/
abbrev Vec3 : Type := ℚ × ℚ × ℚ

/-- Componentwise subtraction of two vertex rows. -/
def vsub (x y : Vec3) : Vec3 := (x.1 - y.1, x.2.1 - y.2.1, x.2.2 - y.2.2)

/-- Componentwise addition of two vertex rows. -/
def vadd (x y : Vec3) : Vec3 := (x.1 + y.1, x.2.1 + y.2.1, x.2.2 + y.2.2)

/-- Componentwise negation of a vertex row. -/
def vneg (x : Vec3) : Vec3 := (-x.1, -x.2.1, -x.2.2)

/-- An `(N, 3)` numpy array: a list of `N` vertex rows. -/
abbrev Rows : Type := List Vec3

/-- Numpy subtraction `a - b` for two arrays of shape `(N, 3)` and
`(M, 3)`.  Numpy broadcasting: if `N = M` the subtraction is elementwise;
if one operand has a single row it is broadcast against the other; any
other shape combination raises a `ValueError` (modelled as `none`). -/
def npSubRows (a b : Rows) : Option Rows :=
  if a.length = b.length then some (List.zipWith vsub a b)
  else if a.length = 1 then some (b.map (fun y => vsub a.headI y))
  else if b.length = 1 then some (a.map (fun x => vsub x b.headI))
  else none

/-- `CAPE_utils.calc_clo_disp(v_cano, minimal_cano)`: the method body is
the single numpy expression `v_cano - minimal_cano`. -/
def calc_clo_disp (v_cano minimal_cano : Rows) : Option Rows :=
  npSubRows v_cano minimal_cano

/-- Spec-side elementwise addition of two `(N, 3)` arrays. -/
def addRows (a b : Rows) : Rows := List.zipWith vadd a b

/-- Spec-side elementwise negation of an `(N, 3)` array. -/
def negRows (a : Rows) : Rows := a.map vneg

/-- The array payloads stored in a frame archive: either a 2-dimensional
`(N, 3)` array or a 1-dimensional vector (pose parameters, translation). -/
inductive NpData where
  | arr2 (rows : Rows)
  | arr1 (entries : List ℚ)
deriving DecidableEq

/-- A `.npz` archive: named array entries, looked up by key string. -/
abbrev Archive : Type := List (String × NpData)

/-- The filesystem visible to `np.load`: archives addressed by path. -/
abbrev FileSys : Type := List (String × Archive)

/-- Failures raised while loading a frame: `notFound` models python's
`FileNotFoundError` from `np.load` on a missing path; `keyError` models
the `KeyError` naming the missing archive entry that `NpzFile.__getitem__`
raises (the `MalformedData` kind of the spec's taxonomy — the error names
the specific absent key rather than failing generically). -/
inductive LoadErr where
  | notFound (path : String)
  | keyError (key : String)
deriving DecidableEq

/-- First-match association lookup (dictionary access). -/
def assocFind {β : Type} : List (String × β) → String → Option β
  | [], _ => none
  | (k, v) :: rest, q => if q = k then some v else assocFind rest q

/-- `np.load(path)`: returns the archive stored at `path`, or fails with
`FileNotFoundError` when the path does not exist. -/
def np_load (fs : FileSys) (path : String) : Except LoadErr Archive :=
  match assocFind fs path with
  | some data => Except.ok data
  | none => Except.error (LoadErr.notFound path)

/-- `data[key]` on an `NpzFile`: the stored array, or a `KeyError` naming
the missing key. -/
def npzGet (data : Archive) (key : String) : Except LoadErr NpData :=
  match assocFind data key with
  | some v => Except.ok v
  | none => Except.error (LoadErr.keyError key)

/-- `CAPE_utils.load_single_frame(npz_fn)`: `np.load` the archive, then
return `data['v_cano'], data['v_posed'], data['pose'], data['transl']`,
evaluated left to right as in python, so the first missing key raises. -/
def load_single_frame (fs : FileSys) (npz_fn : String) :
    Except LoadErr (NpData × NpData × NpData × NpData) :=
  match np_load fs npz_fn with
  | Except.error e => Except.error e
  | Except.ok data =>
    match npzGet data "v_cano" with
    | Except.error e => Except.error e
    | Except.ok vc =>
      match npzGet data "v_posed" with
      | Except.error e => Except.error e
      | Except.ok vp =>
        match npzGet data "pose" with
        | Except.error e => Except.error e
        | Except.ok p =>
          match npzGet data "transl" with
          | Except.error e => Except.error e
          | Except.ok t => Except.ok (vc, vp, p, t)

/-- Whether `pat` is a prefix of `s`, on character lists. -/
def isPrefixChars : List Char → List Char → Bool
  | [], _ => true
  | _ :: _, [] => false
  | p :: ps, c :: cs => p = c && isPrefixChars ps cs

/-- Fuel-driven core of python's `str.replace`: replaces non-overlapping
occurrences of `pat` left to right.  The fuel (always instantiated with
the length of `s`) keeps the recursion structural. -/
def replaceLoop : Nat → List Char → List Char → List Char → List Char
  | 0, s, _, _ => s
  | _ + 1, [], _, _ => []
  | fuel + 1, c :: cs, pat, rep =>
      if isPrefixChars pat (c :: cs) then
        rep ++ replaceLoop fuel (List.drop (pat.length - 1) cs) pat rep
      else c :: replaceLoop fuel cs pat rep

/-- Python `s.replace(pat, rep)` for a non-empty pattern. -/
def strReplace (s pat rep : String) : String :=
  String.mk (replaceLoop s.data.length s.data pat.data rep.data)

/-- `os.path.basename`: the part of the path after the last slash. -/
def basenameStr (s : String) : String :=
  String.mk ((s.data.reverse.takeWhile (fun c => c ≠ '/')).reverse)

/-- `basename(fn).replace('npz', 'obj')` from `extract_mesh_seq`. -/
def meshFrameName (fn : String) : String :=
  strReplace (basenameStr fn) "npz" "obj"

/-- `verts = v_posed if option == 'posed' else v_cano`: the exact string
`'posed'` selects the posed vertices; every other value falls through to
the canonical vertices. -/
def selectVerts (opt : String) (v_cano v_posed : NpData) : NpData :=
  if opt = "posed" then v_posed else v_cano

/-- A mesh as constructed by `Mesh(verts, self.faces)`: vertices paired
with the shared face topology. -/
abbrev MeshVal : Type := NpData × NpData

/-- `CAPE_utils.extract_mesh_seq`, restricted to its per-frame loop: for
each archive path of the globbed sequence list, load the frame, pick the
vertices according to `opt`, and write a mesh file named
`basename(fn).replace('npz', 'obj')`.  The returned list is the sequence
of written `(filename, mesh)` pairs; a load failure aborts the loop. -/
def extract_mesh_seq (fs : FileSys) (faces : NpData) (opt : String) :
    List String → Except LoadErr (List (String × MeshVal))
  | [] => Except.ok []
  | fn :: rest =>
    match load_single_frame fs fn with
    | Except.error e => Except.error e
    | Except.ok (v_cano, v_posed, _p, _t) =>
      match extract_mesh_seq fs faces opt rest with
      | Except.error e => Except.error e
      | Except.ok ms =>
          Except.ok ((meshFrameName fn, (selectVerts opt v_cano v_posed, faces)) :: ms)

/-- `os.path.join` for the relative, slash-free components this code
passes it: empty left operand yields the right operand, otherwise the
two are joined with a slash. -/
def pyJoin (a b : String) : String :=
  if a = "" then b else a ++ "/" ++ b

/-- Python `'{:0>2d}'.format(i)`: the decimal digits of `i`, left-padded
with `'0'` to at least two characters. -/
def natPad2 (i : Nat) : String :=
  let s := Nat.repr i
  if s.length < 2 then String.mk (List.replicate (2 - s.length) '0') ++ s
  else s

/-- `mesh_dir = join(self.dataset_dir, 'scans', subj, seq_name)` inside
the `vis_overlap` loop. -/
def visOverlapMeshDir (dataset_dir subj seq_name : String) : String :=
  pyJoin (pyJoin (pyJoin dataset_dir "scans") subj) seq_name

/-- The path of `mscan.write_obj(join(mesh_dir, '{:0>2d}.png'.format(i)))`,
the first write of the `vis_overlap` loop body. -/
def visOverlapScanPath (dataset_dir subj seq_name : String) (i : Nat) : String :=
  pyJoin (visOverlapMeshDir dataset_dir subj seq_name) (natPad2 i ++ ".png")

/-- The path of `malign.write_obj(join(mesh_dir, '{:0>2d}.png'.format(i)))`,
the second write of the `vis_overlap` loop body. -/
def visOverlapAlignPath (dataset_dir subj seq_name : String) (i : Nat) : String :=
  pyJoin (visOverlapMeshDir dataset_dir subj seq_name) (natPad2 i ++ ".png")

/-- The two mesh writes one iteration of the `vis_overlap` loop performs,
in program order: first the raw scan, then the alignment. -/
def visOverlapIterWrites (dataset_dir subj seq_name : String) (i : Nat)
    (mscan malign : MeshVal) : List (String × MeshVal) :=
  [(visOverlapScanPath dataset_dir subj seq_name i, mscan),
   (visOverlapAlignPath dataset_dir subj seq_name i, malign)]

/-- Writing one file into a filesystem state: a later write to the same
path replaces the earlier content. -/
def writeFile (f : String → Option MeshVal) (p : String) (m : MeshVal) :
    String → Option MeshVal :=
  fun q => if q = p then some m else f q

/-- Performing a list of writes in order. -/
def runWrites (f : String → Option MeshVal) (ws : List (String × MeshVal)) :
    String → Option MeshVal :=
  ws.foldl (fun g pm => writeFile g pm.1 pm.2) f

/-- Boolean membership of a name in an environment of defined names. -/
def memStr : String → List String → Bool
  | _, [] => false
  | n, e :: rest => if n = e then true else memStr n rest

/-- The first name of `reads` that is not bound in `env`, if any: the
name whose lookup would raise python's `NameError`. -/
def firstUnbound (env : List String) : List String → Option String
  | [] => none
  | n :: rest => if memStr n env then firstUnbound env rest else some n

/-- The statements of `CAPE_utils.demo`, in program order.  Each entry
lists the non-builtin names the statement reads, then the local names it
assigns (builtins such as `open`, `print` and attribute accesses after
the name itself are omitted; they are always resolvable).
Statement 0 is the function-level `from psbody.mesh import ...`;
statement 2 is `minimal_fn = join(dataset_dir, ...)`; statement 4 is
`data_dir = join(dataset_dir, ...)`; statement 10 is
`clo_disps = self.calc_clo_disp(clo_cano, minimal_cano)`. -/
def demoStmts : List (List String × List String) :=
  [([], ["Mesh", "MeshViewer", "MeshViewers"]),
   (["pkl", "join", "self", "subj"], ["gender"]),
   (["join", "dataset_dir", "subj"], ["minimal_fn"]),
   (["np", "minimal_fn"], ["minimal_cano"]),
   (["join", "dataset_dir", "subj", "seq_name"], ["data_dir"]),
   (["os", "data_dir"], ["data_choice"]),
   (["join", "data_dir", "data_choice"], ["data_path"]),
   ([], []),
   (["subj", "data_choice"], []),
   (["self", "data_path"], ["clo_cano", "clo_posed", "pose_params", "transl"]),
   (["self", "clo_cano", "minimal_cano"], ["clo_disps"]),
   (["Mesh", "clo_cano", "self"], ["mesh_clothed_colored"]),
   ([], []),
   ([], []),
   (["np", "clo_disps"], ["vc"]),
   (["mesh_clothed_colored", "vc"], []),
   (["MeshViewers"], ["mvs"]),
   (["mvs", "Mesh", "minimal_cano", "self"], []),
   (["mvs", "mesh_clothed_colored"], [])]

/-- Run a statement list under python name resolution: a read of a name
bound neither locally nor globally stops execution with `(index, name)`
— the statement index at which `NameError` is raised — and no later
statement (in particular no later assignment) executes. -/
def runStmtsAux (env : List String) (i : Nat) :
    List (List String × List String) → Except (Nat × String) (List String)
  | [] => Except.ok env
  | (reads, assigns) :: rest =>
    match firstUnbound env reads with
    | some n => Except.error (i, n)
    | none => runStmtsAux (env ++ assigns) (i + 1) rest

/-- Name resolution over the body of `demo`, starting from the method
parameters `self`, `subj`, `seq_name` plus the module-level globals in
scope at call time. -/
def runDemoNames (globals : List String) : Except (Nat × String) (List String) :=
  runStmtsAux (["self", "subj", "seq_name"] ++ globals) 0 demoStmts

/-- The `NameError` produced by a call to `demo` under the given module
globals: `some (i, n)` when statement `i` reads the unbound name `n`,
`none` when every name resolves. -/
def demoNameErr (globals : List String) : Option (Nat × String) :=
  match runDemoNames globals with
  | Except.ok _ => none
  | Except.error e => some e

/-- The module-level names bound by the import statements of
`dataset_utils.py`, present in globals whether or not the script is run
as `__main__`. -/
def demoImportGlobals : List String :=
  ["pkl", "os", "glob", "np", "join", "exists", "basename", "tqdm", "CAPE_utils"]

/-- The index of the displacement statement
`clo_disps = self.calc_clo_disp(clo_cano, minimal_cano)` in `demoStmts`. -/
def demoDispStmtIndex : Nat := 10

lemma vadd_vsub_cancel (x y : Vec3) : vadd (vsub x y) y = x := by
  cases x with
  | mk x1 x23 =>
    cases x23 with
    | mk x2 x3 =>
      cases y with
      | mk y1 y23 =>
        cases y23 with
        | mk y2 y3 => simp [vadd, vsub]

lemma vsub_eq_vneg_vsub (x y : Vec3) : vsub x y = vneg (vsub y x) := by
  cases x with
  | mk x1 x23 =>
    cases x23 with
    | mk x2 x3 =>
      cases y with
      | mk y1 y23 =>
        cases y23 with
        | mk y2 y3 => simp [vsub, vneg]

lemma addRows_zipWith_vsub (a b : Rows) (h : a.length = b.length) :
    addRows (List.zipWith vsub a b) b = a := by
  induction a generalizing b with
  | nil => cases b with
    | nil => rfl
    | cons y ys => simp at h
  | cons x xs ih =>
    cases b with
    | nil => simp at h
    | cons y ys =>
      simp only [List.length_cons, Nat.succ_inj] at h
      simp [addRows, List.zipWith, vadd_vsub_cancel]
      have := ih ys h
      simpa [addRows] using this

lemma zipWith_vsub_comm_neg (a b : Rows) :
    List.zipWith vsub a b = negRows (List.zipWith vsub b a) := by
  induction a generalizing b with
  | nil => cases b <;> simp [negRows]
  | cons x xs ih =>
    cases b with
    | nil => simp [negRows]
    | cons y ys =>
      simp only [List.zipWith, negRows, List.map_cons, List.cons.injEq]
      exact ⟨vsub_eq_vneg_vsub x y, by simpa [negRows] using ih ys⟩

lemma calc_clo_disp_eq_zipWith (a b : Rows) (h : a.length = b.length) :
    calc_clo_disp a b = some (List.zipWith vsub a b) := by
  simp [calc_clo_disp, npSubRows, h]

/-- C1: for every pair of `(N, 3)` arrays with the same vertex count,
`calc_clo_disp` returns the `(N, 3)` array whose row `i` is the
elementwise subtraction of row `i` of `v_cano` and row `i` of
`minimal_cano`. -/
theorem calc_clo_disp_elementwise (a b : Rows) (h : a.length = b.length) :
    ∃ r, calc_clo_disp a b = some r ∧ r.length = a.length ∧
      ∀ i, (hr : i < r.length) → (ha : i < a.length) → (hb : i < b.length) →
        r.get ⟨i, hr⟩ = vsub (a.get ⟨i, ha⟩) (b.get ⟨i, hb⟩) := by
  refine ⟨List.zipWith vsub a b, calc_clo_disp_eq_zipWith a b h, ?_, ?_⟩
  · simp [h]
  · intro i hr ha hb
    simp [List.get_eq_getElem]

/-- C1 witness: the scenario of the spec, `v_cano = [[1,0,0],[0,1,0]]`,
`minimal_cano = [[0,0,0],[0,0,0]]`, yields `[[1,0,0],[0,1,0]]`. -/
theorem calc_clo_disp_elementwise_witness :
    ([((1:ℚ),0,0), (0,1,0)] : Rows).length = ([((0:ℚ),0,0), (0,0,0)] : Rows).length ∧
    calc_clo_disp [((1:ℚ),0,0), (0,1,0)] [((0:ℚ),0,0), (0,0,0)] =
      some [((1:ℚ),0,0), (0,1,0)] ∧
    (∃ r, calc_clo_disp [((1:ℚ),0,0), (0,1,0)] [((0:ℚ),0,0), (0,0,0)] = some r ∧
      r.length = ([((1:ℚ),0,0), (0,1,0)] : Rows).length ∧
      ∀ i, (hr : i < r.length) → (ha : i < ([((1:ℚ),0,0), (0,1,0)] : Rows).length) →
          (hb : i < ([((0:ℚ),0,0), (0,0,0)] : Rows).length) →
        r.get ⟨i, hr⟩ = vsub (([((1:ℚ),0,0), (0,1,0)] : Rows).get ⟨i, ha⟩)
          (([((0:ℚ),0,0), (0,0,0)] : Rows).get ⟨i, hb⟩)) :=
  ⟨rfl, by norm_num [calc_clo_disp, npSubRows, vsub],
   calc_clo_disp_elementwise [((1:ℚ),0,0), (0,1,0)] [((0:ℚ),0,0), (0,0,0)] rfl⟩

/-- C2: for arrays of equal vertex count, adding the second operand back
to the displacement recovers the first operand. -/
theorem calc_clo_disp_roundtrip (a b : Rows) (h : a.length = b.length) :
    ∃ d, calc_clo_disp a b = some d ∧ addRows d b = a :=
  ⟨List.zipWith vsub a b, calc_clo_disp_eq_zipWith a b h,
   addRows_zipWith_vsub a b h⟩

/-- C2 witness: round trip at a concrete pair of 2×3 arrays. -/
theorem calc_clo_disp_roundtrip_witness :
    ([((3:ℚ),1,4), (1,5,9)] : Rows).length = ([((2:ℚ),7,1), (8,2,8)] : Rows).length ∧
    (∃ d, calc_clo_disp [((3:ℚ),1,4), (1,5,9)] [((2:ℚ),7,1), (8,2,8)] = some d ∧
      addRows d [((2:ℚ),7,1), (8,2,8)] = [((3:ℚ),1,4), (1,5,9)]) :=
  ⟨rfl, calc_clo_disp_roundtrip [((3:ℚ),1,4), (1,5,9)] [((2:ℚ),7,1), (8,2,8)] rfl⟩

/-- C3: for arrays of equal vertex count, the displacement is
antisymmetric: `calc_clo_disp a b` is the elementwise negation of
`calc_clo_disp b a`. -/
theorem calc_clo_disp_antisymm (a b : Rows) (h : a.length = b.length) :
    ∃ d e, calc_clo_disp a b = some d ∧ calc_clo_disp b a = some e ∧
      d = negRows e :=
  ⟨List.zipWith vsub a b, List.zipWith vsub b a,
   calc_clo_disp_eq_zipWith a b h, calc_clo_disp_eq_zipWith b a h.symm,
   zipWith_vsub_comm_neg a b⟩

/-- C3 witness: antisymmetry at a concrete pair of 2×3 arrays. -/
theorem calc_clo_disp_antisymm_witness :
    ([((3:ℚ),1,4), (1,5,9)] : Rows).length = ([((2:ℚ),7,1), (8,2,8)] : Rows).length ∧
    (∃ d e, calc_clo_disp [((3:ℚ),1,4), (1,5,9)] [((2:ℚ),7,1), (8,2,8)] = some d ∧
      calc_clo_disp [((2:ℚ),7,1), (8,2,8)] [((3:ℚ),1,4), (1,5,9)] = some e ∧
      d = negRows e) :=
  ⟨rfl, calc_clo_disp_antisymm [((3:ℚ),1,4), (1,5,9)] [((2:ℚ),7,1), (8,2,8)] rfl⟩

/-- C4 counterexample: a 1×3 and a 2×3 array have different vertex
counts, yet `calc_clo_disp` does not fail — numpy broadcasting produces
a 2×3 result. -/
theorem calc_clo_disp_mismatch_counterexample :
    ([((1:ℚ),0,0)] : Rows).length ≠ ([((0:ℚ),0,0), (0,0,0)] : Rows).length ∧
    calc_clo_disp [((1:ℚ),0,0)] [((0:ℚ),0,0), (0,0,0)] =
      some [((1:ℚ),0,0), (1,0,0)] := by
  constructor
  · decide
  · norm_num [calc_clo_disp, npSubRows, vsub]

/-- C4 amended: when the vertex counts differ and neither operand has a
single vertex, the subtraction fails (numpy raises its broadcast
`ValueError`, the spec's `ShapeMismatch` kind) and no result is
produced; a one-vertex operand instead broadcasts. -/
theorem calc_clo_disp_mismatch_fails (a b : Rows) (h : a.length ≠ b.length)
    (ha : a.length ≠ 1) (hb : b.length ≠ 1) : calc_clo_disp a b = none := by
  simp [calc_clo_disp, npSubRows, h, ha, hb]

/-- C4 amended witness: a 2×3 against a 3×3 array fails. -/
theorem calc_clo_disp_mismatch_fails_witness :
    ([((1:ℚ),0,0), (0,1,0)] : Rows).length ≠ ([((0:ℚ),0,0), (0,0,0), (0,0,0)] : Rows).length ∧
    ([((1:ℚ),0,0), (0,1,0)] : Rows).length ≠ 1 ∧
    ([((0:ℚ),0,0), (0,0,0), (0,0,0)] : Rows).length ≠ 1 ∧
    calc_clo_disp [((1:ℚ),0,0), (0,1,0)] [((0:ℚ),0,0), (0,0,0), (0,0,0)] = none :=
  ⟨by decide, by decide, by decide,
   calc_clo_disp_mismatch_fails [((1:ℚ),0,0), (0,1,0)]
     [((0:ℚ),0,0), (0,0,0), (0,0,0)] (by decide) (by decide) (by decide)⟩

/-- A concrete well-formed frame archive used as witness data. -/
def exFrameArchive : Archive :=
  [("v_cano", NpData.arr2 [((1:ℚ),0,0), (0,1,0)]),
   ("v_posed", NpData.arr2 [((1:ℚ),0,1), (0,1,1)]),
   ("pose", NpData.arr1 [0, 0]),
   ("transl", NpData.arr1 [0, 0, 0])]

/-- A concrete frame archive lacking the `transl` entry. -/
def exArchiveNoTransl : Archive :=
  [("v_cano", NpData.arr2 [((1:ℚ),0,0), (0,1,0)]),
   ("v_posed", NpData.arr2 [((1:ℚ),0,1), (0,1,1)]),
   ("pose", NpData.arr1 [0, 0])]

/-- A concrete filesystem holding the two witness archives. -/
def exFS : FileSys :=
  [("frame_001.npz", exFrameArchive), ("frame_002.npz", exArchiveNoTransl)]

/-- A concrete face-topology array used as witness data. -/
def exFaces : NpData := NpData.arr2 [((0:ℚ),1,2)]

/-- C5: for every archive path whose archive holds the four named
entries, `load_single_frame` returns exactly the four stored arrays
under `v_cano`, `v_posed`, `pose`, `transl`, in that order. -/
theorem load_single_frame_returns_four (fs : FileSys) (path : String)
    (data : Archive) (vc vp p t : NpData)
    (hload : np_load fs path = Except.ok data)
    (h1 : assocFind data "v_cano" = some vc)
    (h2 : assocFind data "v_posed" = some vp)
    (h3 : assocFind data "pose" = some p)
    (h4 : assocFind data "transl" = some t) :
    load_single_frame fs path = Except.ok (vc, vp, p, t) := by
  simp [load_single_frame, npzGet, hload, h1, h2, h3, h4]

/-- C5 witness: loading the concrete archive returns its four entries. -/
theorem load_single_frame_returns_four_witness :
    np_load exFS "frame_001.npz" = Except.ok exFrameArchive ∧
    assocFind exFrameArchive "v_cano" = some (NpData.arr2 [((1:ℚ),0,0), (0,1,0)]) ∧
    assocFind exFrameArchive "v_posed" = some (NpData.arr2 [((1:ℚ),0,1), (0,1,1)]) ∧
    assocFind exFrameArchive "pose" = some (NpData.arr1 [0, 0]) ∧
    assocFind exFrameArchive "transl" = some (NpData.arr1 [0, 0, 0]) ∧
    load_single_frame exFS "frame_001.npz" =
      Except.ok (NpData.arr2 [((1:ℚ),0,0), (0,1,0)], NpData.arr2 [((1:ℚ),0,1), (0,1,1)],
        NpData.arr1 [0, 0], NpData.arr1 [0, 0, 0]) :=
  ⟨rfl, rfl, rfl, rfl, rfl,
   load_single_frame_returns_four exFS "frame_001.npz" exFrameArchive
     (NpData.arr2 [((1:ℚ),0,0), (0,1,0)]) (NpData.arr2 [((1:ℚ),0,1), (0,1,1)])
     (NpData.arr1 [0, 0]) (NpData.arr1 [0, 0, 0]) rfl rfl rfl rfl rfl⟩

/-- C6: for every frame archive that lacks the `transl` entry,
`load_single_frame` fails with a `KeyError` naming a missing key (the
`MalformedData` kind), never with a generic or `notFound` failure. -/
theorem load_single_frame_missing_transl (fs : FileSys) (path : String)
    (data : Archive) (hload : np_load fs path = Except.ok data)
    (ht : assocFind data "transl" = none) :
    ∃ k, load_single_frame fs path = Except.error (LoadErr.keyError k) := by
  cases h1 : assocFind data "v_cano" with
  | none => exact ⟨"v_cano", by simp [load_single_frame, npzGet, hload, h1]⟩
  | some vc =>
    cases h2 : assocFind data "v_posed" with
    | none => exact ⟨"v_posed", by simp [load_single_frame, npzGet, hload, h1, h2]⟩
    | some vp =>
      cases h3 : assocFind data "pose" with
      | none => exact ⟨"pose", by simp [load_single_frame, npzGet, hload, h1, h2, h3]⟩
      | some p =>
        exact ⟨"transl", by simp [load_single_frame, npzGet, hload, h1, h2, h3, ht]⟩

/-- C6 witness: the concrete archive without `transl` fails with the
`KeyError` naming `transl`. -/
theorem load_single_frame_missing_transl_witness :
    np_load exFS "frame_002.npz" = Except.ok exArchiveNoTransl ∧
    assocFind exArchiveNoTransl "transl" = none ∧
    load_single_frame exFS "frame_002.npz" =
      Except.error (LoadErr.keyError "transl") ∧
    (∃ k, load_single_frame exFS "frame_002.npz" =
      Except.error (LoadErr.keyError k)) :=
  ⟨rfl, rfl, rfl,
   load_single_frame_missing_transl exFS "frame_002.npz" exArchiveNoTransl rfl rfl⟩

/-- C7: sequence extraction over an empty list of matching archives
returns successfully with zero written mesh files. -/
theorem extract_mesh_seq_empty (fs : FileSys) (faces : NpData) (opt : String) :
    extract_mesh_seq fs faces opt [] = Except.ok [] := rfl

/-- C10: any option value other than the exact string `posed` selects
the canonical vertices, and sequence extraction under it behaves exactly
as under `canonical` — unrecognized option values are not rejected. -/
theorem extract_mesh_seq_nonposed (fs : FileSys) (faces v_cano v_posed : NpData)
    (fns : List String) (opt : String) (h : opt ≠ "posed") :
    selectVerts opt v_cano v_posed = v_cano ∧
    extract_mesh_seq fs faces opt fns = extract_mesh_seq fs faces "canonical" fns := by
  constructor
  · simp [selectVerts, h]
  · induction fns with
    | nil => rfl
    | cons fn rest ih =>
      unfold extract_mesh_seq
      rw [ih]
      cases load_single_frame fs fn with
      | error e => rfl
      | ok q =>
        obtain ⟨vc, vp, p, t⟩ := q
        cases extract_mesh_seq fs faces "canonical" rest with
        | error e => rfl
        | ok ms => simp [selectVerts, h]

/-- C10 witness: the unrecognized option `foo` extracts the canonical
vertices of the concrete frame, identically to `canonical`. -/
theorem extract_mesh_seq_nonposed_witness :
    "foo" ≠ "posed" ∧
    (selectVerts "foo" (NpData.arr2 [((1:ℚ),0,0), (0,1,0)])
        (NpData.arr2 [((1:ℚ),0,1), (0,1,1)]) = NpData.arr2 [((1:ℚ),0,0), (0,1,0)] ∧
      extract_mesh_seq exFS exFaces "foo" ["frame_001.npz"] =
        extract_mesh_seq exFS exFaces "canonical" ["frame_001.npz"]) ∧
    extract_mesh_seq exFS exFaces "foo" ["frame_001.npz"] =
      Except.ok [("frame_001.obj", (NpData.arr2 [((1:ℚ),0,0), (0,1,0)], exFaces))] :=
  ⟨by decide,
   extract_mesh_seq_nonposed exFS exFaces (NpData.arr2 [((1:ℚ),0,0), (0,1,0)])
     (NpData.arr2 [((1:ℚ),0,1), (0,1,1)]) ["frame_001.npz"] "foo" (by decide),
   rfl⟩

/-- C8: in every iteration of `vis_overlap`, the raw scan and the
alignment are written to the same output filename, so after the two
writes the file at that path holds the alignment — the scan write is
silently overwritten. -/
theorem vis_overlap_write_collision (dataset_dir subj seq_name : String)
    (i : Nat) (mscan malign : MeshVal) (f : String → Option MeshVal) :
    visOverlapScanPath dataset_dir subj seq_name i =
      visOverlapAlignPath dataset_dir subj seq_name i ∧
    runWrites f (visOverlapIterWrites dataset_dir subj seq_name i mscan malign)
      (visOverlapScanPath dataset_dir subj seq_name i) = some malign := by
  refine ⟨rfl, ?_⟩
  simp [runWrites, visOverlapIterWrites, writeFile,
    visOverlapScanPath, visOverlapAlignPath]

/-- C9 counterexample: under the module globals of a script run (where
the `__main__` block has bound `dataset_dir`), name resolution over the
body of `demo` raises no unbound-name error, so not every call to
`demo` fails with a `NameError`. -/
theorem demo_name_resolution_counterexample :
    demoNameErr (demoImportGlobals ++ ["dataset_dir"]) = none := by decide

/-- C9 amended: `demo` reads the name `dataset_dir` as a module-level
global, not `self.dataset_dir`; when that global is unbound (the module
imported rather than run as a script) the call fails with a `NameError`
on `dataset_dir` at statement 2 (`minimal_fn = join(dataset_dir, ...)`),
strictly before the displacement statement at index 10, so no
displacement is computed in that case. -/
theorem demo_unbound_dataset_dir :
    demoNameErr demoImportGlobals = some (2, "dataset_dir") ∧
    2 < demoDispStmtIndex ∧
    (demoStmts[demoDispStmtIndex]?).map Prod.snd = some ["clo_disps"] :=
  ⟨by decide, by decide, by decide⟩
